import Mathlib

/-!
Shallow embedding of the exonum Rust runtime core
(`src/exonum/src/runtime/rust/mod.rs`), of the merkledb database options
(`src/components/merkledb/src/options.rs`) and of the CLI configuration
tuning command (`src/cli/src/command/optimize_config.rs`), together with
theorems settling the specification claims about them.

Modelling conventions:
* `HashMap` / `HashSet` become association lists / lists with explicit
  lookup, insert and remove operations.
* The `RefCell<RustRuntimeInner>` becomes explicit state passing plus a
  `mutb : Bool` flag recording whether a mutable borrow of the cell is
  currently outstanding; `RefCell::borrow()` while a mutable borrow is
  active is a panic.
* A Rust panic (a failed `unwrap`, a `RefCell` borrow conflict) is the
  `none` outcome of an `Option`-valued operation.
* A service's behaviour (its `initialize` and `call` bodies, field names
  `initialize_fn` / `call_fn` here) is a program in a small action
  language `SProg` that can read and write the storage fork and re-enter
  the runtime through `dispatch_call`; the interpreter `runProg` is fuel
  indexed because nested dispatch is unbounded in the source.
-/

/-! ### Association list helpers (model of `HashMap` / `HashSet`) -/

def assocFind {K V : Type} [DecidableEq K] (k : K) : List (K × V) → Option V
  | [] => none
  | kv :: rest => if kv.1 = k then some kv.2 else assocFind k rest

def assocInsert {K V : Type} [DecidableEq K] (k : K) (v : V) : List (K × V) → List (K × V)
  | [] => [(k, v)]
  | kv :: rest => if kv.1 = k then (k, v) :: rest else kv :: assocInsert k v rest

def assocRemove {K V : Type} [DecidableEq K] (k : K) (l : List (K × V)) : List (K × V) :=
  l.filter (fun kv => decide (kv.1 ≠ k))

/-! ### Basic runtime data types -/

/-- `crypto::Hash`, opaque to the runtime. -/
abbrev Hash := Nat

/-- `crypto::PublicKey`, opaque to the runtime. -/
abbrev PublicKey := Nat

/-- `storage::Fork`, the mutable storage view; opaque key-value data. -/
abbrev Fork := List (String × String)

/-- `ServiceInstanceId` from the runtime interface. -/
abbrev ServiceInstanceId := Nat

/-- `RustArtifactSpec { name, version }`; the semantic version is kept as an
opaque string since the runtime only uses equality and hashing. -/
structure RustArtifactSpec where
  name : String
  version : String
deriving DecidableEq, Repr

/-- Modelled from the spec: `ArtifactSpec` of the enclosing runtime module is
not under `src/`; the Rust runtime only matches the `Rust` variant and treats
every other runtime kind as `WrongArtifact`, so one abstract non-Rust variant
suffices. -/
inductive ArtifactSpec where
  | rust (spec : RustArtifactSpec)
  | otherRuntime (kind : String)
deriving DecidableEq, Repr

/-- `CallInfo { instance_id, method_id }`. -/
structure CallInfo where
  instance_id : ServiceInstanceId
  method_id : Nat
deriving DecidableEq, Repr

/-- `InstanceInitData { instance_id, constructor_data }`. -/
structure InstanceInitData where
  instance_id : ServiceInstanceId
  constructor_data : List Nat
deriving DecidableEq, Repr

/-- `RuntimeContext { fork, tx_hash, author }`. -/
structure RuntimeContext where
  fork : Fork
  tx_hash : Hash
  author : PublicKey

/-! ### Error types

Modelled from the spec: `runtime::error` (`DeployError`, `InitError`,
`ExecutionError`, `DISPATCH_ERROR`) is not under `src/`; the variant names
are taken from their uses in `runtime/rust/mod.rs` and from the spec's
error taxonomy (§7). -/

inductive DeployError where
  | WrongArtifact
  | FailedToDeploy
  | AlreadyDeployed
deriving DecidableEq, Repr

inductive DeployStatus where
  | Deployed
deriving DecidableEq, Repr

/-- Modelled from the spec: an `ExecutionError` carries an error code and a
human-readable description (`ExecutionError::with_description`). -/
structure ExecutionError where
  code : Nat
  description : String
deriving DecidableEq, Repr

def ExecutionError.with_description (code : Nat) (description : String) : ExecutionError :=
  ⟨code, description⟩

/-- Modelled from the spec: the fixed dispatch-failure code (§7: "a fixed
dispatch-failure code"). Its numeric value is irrelevant to every claim. -/
def DISPATCH_ERROR : Nat := 0

/-- Modelled from the spec: the stringified form of an `ExecutionError`
used by `format!("Dispatch error: {}", e)` (§7: "the stringified cause"). -/
def ExecutionError.display (e : ExecutionError) : String := e.description

inductive InitError where
  | WrongArtifact
  | NotDeployed
  | ServiceIdExists
  | ExecutionError (e : ExecutionError)
deriving DecidableEq, Repr

/-! ### Services and the runtime state -/

/-- A service body: a program that can finish with a `Result<(), ExecutionError>`,
read or write the storage fork of its transaction context, or re-enter the
runtime via `dispatch_call`. -/
inductive SProg where
  | ret (r : Except ExecutionError Unit)
  | readFork (k : Fork → SProg)
  | writeFork (f : Fork → Fork) (k : SProg)
  | dispatchCall (ci : CallInfo) (payload : List Nat) (k : Except ExecutionError Unit → SProg)

/-- `trait Service { fn initialize(..); fn call(..); }`. The field
`initialize_fn` embeds the source's `initialize` method (receiving the
constructor payload) and `call_fn` embeds `call` (receiving the method id
and the payload); the transaction context is supplied by the interpreter. -/
structure Service where
  initialize_fn : List Nat → SProg
  call_fn : Nat → List Nat → SProg

/-- `RustRuntimeInner { services, deployed, initialized }`. -/
structure RustRuntimeInner where
  services : List (RustArtifactSpec × Service)
  deployed : List RustArtifactSpec
  initialized : List (ServiceInstanceId × Service)

/-- `RustRuntime::default()`: all three registries empty. -/
def RustRuntimeInner.empty : RustRuntimeInner := ⟨[], [], []⟩

/-- `RustRuntime::add_service`. -/
def RustRuntime.add_service (rt : RustRuntimeInner) (artifact : RustArtifactSpec)
    (service : Service) : RustRuntimeInner :=
  { rt with services := assocInsert artifact service rt.services }

/-- Wrapping of a service `call` result performed by `execute`
(`map_err` with `DISPATCH_ERROR` and the stringified cause). -/
def wrapDispatchResult (r : Except ExecutionError Unit) : Except ExecutionError Unit :=
  r.mapError fun e =>
    ExecutionError.with_description DISPATCH_ERROR ("Dispatch error: " ++ e.display)

/-- Interpreter for service programs. `mutb` records whether a mutable borrow
of the runtime's `RefCell` is outstanding around this program (true inside
`init_service`'s `initialize` call, false inside `execute`'s `call`).
The `dispatchCall` case inlines `RustRuntime::execute` (reached through
`TransactionContext::dispatch_call`): taking `RefCell::borrow()` while a
mutable borrow is outstanding panics (`none`), as does the source's
`.get(&dispatch.instance_id).unwrap()` on an unknown instance id. Fuel is
consumed at every step; `none` from fuel exhaustion models non-termination
of unboundedly nested dispatch. -/
def runProg : Nat → RustRuntimeInner → Bool → RuntimeContext → SProg →
    Option (Except ExecutionError Unit × RuntimeContext)
  | 0, _, _, _, _ => none
  | Nat.succ fuel, rt, mutb, ctx, prog =>
    match prog with
    | SProg.ret r => some (r, ctx)
    | SProg.readFork k => runProg fuel rt mutb ctx (k ctx.fork)
    | SProg.writeFork f k =>
        runProg fuel rt mutb { ctx with fork := f ctx.fork } k
    | SProg.dispatchCall ci payload k =>
        if mutb then none
        else
          match assocFind ci.instance_id rt.initialized with
          | none => none
          | some inst =>
            match runProg fuel rt false ctx (inst.call_fn ci.method_id payload) with
            | none => none
            | some (r, ctx2) => runProg fuel rt mutb ctx2 (k (wrapDispatchResult r))

/-- `RustRuntime::execute`. Takes `RefCell::borrow()` (panics if a mutable
borrow is outstanding, i.e. `mutb = true`), then looks the instance up with
an unchecked `.unwrap()` (panics on `none`), then runs the service's `call`
and wraps any service error with `DISPATCH_ERROR`. The registries are only
borrowed immutably, so the runtime state is unchanged; the transaction
context (the fork) may change. -/
def RustRuntime.execute (fuel : Nat) (rt : RustRuntimeInner) (mutb : Bool)
    (ctx : RuntimeContext) (dispatch : CallInfo) (payload : List Nat) :
    Option (Except ExecutionError Unit × RuntimeContext) :=
  if mutb then none
  else
    match assocFind dispatch.instance_id rt.initialized with
    | none => none
    | some inst =>
      match runProg fuel rt false ctx (inst.call_fn dispatch.method_id payload) with
      | none => none
      | some (r, ctx2) => some (wrapDispatchResult r, ctx2)

/-- `RustRuntime::start_deploy`. -/
def RustRuntime.start_deploy (rt : RustRuntimeInner) (artifact : ArtifactSpec) :
    Except DeployError Unit × RustRuntimeInner :=
  match artifact with
  | ArtifactSpec.otherRuntime _ => (Except.error DeployError.WrongArtifact, rt)
  | ArtifactSpec.rust a =>
    if (assocFind a rt.services).isSome then
      if a ∈ rt.deployed then
        (Except.error DeployError.AlreadyDeployed, rt)
      else
        (Except.ok (), { rt with deployed := a :: rt.deployed })
    else
      (Except.error DeployError.FailedToDeploy, rt)

/-- `RustRuntime::check_deploy_status`. Pure read. -/
def RustRuntime.check_deploy_status (rt : RustRuntimeInner) (artifact : ArtifactSpec) :
    Except DeployError DeployStatus :=
  match artifact with
  | ArtifactSpec.otherRuntime _ => Except.error DeployError.WrongArtifact
  | ArtifactSpec.rust a =>
    if a ∈ rt.deployed then Except.ok DeployStatus.Deployed
    else Except.error DeployError.FailedToDeploy

/-- `RustRuntime::init_service`. After the guards pass, the service value is
removed from `services` with an unchecked `.unwrap()` (panic, `none`, when the
artifact's service was already consumed), inserted into `initialized`, looked
up again with an unchecked `.unwrap()` and its `initialize` body run while
the mutable borrow of the cell is still outstanding (`mutb = true`). -/
def RustRuntime.init_service (fuel : Nat) (rt : RustRuntimeInner) (ctx : RuntimeContext)
    (artifact : ArtifactSpec) (init : InstanceInitData) :
    Option (Except InitError Unit × RustRuntimeInner × RuntimeContext) :=
  match artifact with
  | ArtifactSpec.otherRuntime _ => some (Except.error InitError.WrongArtifact, rt, ctx)
  | ArtifactSpec.rust a =>
    if a ∈ rt.deployed then
      if (assocFind init.instance_id rt.initialized).isSome then
        some (Except.error InitError.ServiceIdExists, rt, ctx)
      else
        match assocFind a rt.services with
        | none => none
        | some service =>
          let rt2 : RustRuntimeInner :=
            { services := assocRemove a rt.services
              deployed := rt.deployed
              initialized := assocInsert init.instance_id service rt.initialized }
          match assocFind init.instance_id rt2.initialized with
          | none => none
          | some svc =>
            match runProg fuel rt2 true ctx (svc.initialize_fn init.constructor_data) with
            | none => none
            | some (r, ctx2) =>
                some (r.mapError InitError.ExecutionError, rt2, ctx2)
    else
      some (Except.error InitError.NotDeployed, rt, ctx)

/-- `TransactionContext { env_context, runtime }`; the runtime reference is
the shared cell's state together with the outstanding-borrow flag. -/
structure TransactionContext where
  runtime : RustRuntimeInner
  mutablyBorrowed : Bool
  env_context : RuntimeContext

/-- `TransactionContext::dispatch_call`: literally
`self.runtime.execute(self.env_context, dispatch, payload)`. -/
def TransactionContext.dispatch_call (fuel : Nat) (tc : TransactionContext)
    (dispatch : CallInfo) (payload : List Nat) :
    Option (Except ExecutionError Unit × RuntimeContext) :=
  RustRuntime.execute fuel tc.runtime tc.mutablyBorrowed tc.env_context dispatch payload

/-! ### Operation traces over the runtime

A trace is a sequence of `RuntimeEnvironment` operations (plus the
out-of-band `add_service` registration) applied to a starting state.
An operation that panics aborts the trace (`none`). -/

inductive Op where
  | addService (a : RustArtifactSpec) (svc : Service)
  | startDeploy (a : ArtifactSpec)
  | checkStatus (a : ArtifactSpec)
  | initService (ctx : RuntimeContext) (a : ArtifactSpec) (init : InstanceInitData)
  | execCall (ctx : RuntimeContext) (ci : CallInfo) (payload : List Nat)

/-- Effect of one operation on the runtime state. `check_deploy_status` and
`execute` only borrow the registries immutably; `execute`'s result is
discarded here but its panic aborts the trace. -/
def Op.step (fuel : Nat) (rt : RustRuntimeInner) : Op → Option RustRuntimeInner
  | Op.addService a svc => some (RustRuntime.add_service rt a svc)
  | Op.startDeploy a => some (RustRuntime.start_deploy rt a).2
  | Op.checkStatus _ => some rt
  | Op.initService ctx a init =>
    match RustRuntime.init_service fuel rt ctx a init with
    | none => none
    | some (_, rt2, _) => some rt2
  | Op.execCall ctx ci payload =>
    match RustRuntime.execute fuel rt false ctx ci payload with
    | none => none
    | some _ => some rt

def runTrace (fuel : Nat) (rt : RustRuntimeInner) : List Op → Option RustRuntimeInner
  | [] => some rt
  | op :: ops =>
    match op.step fuel rt with
    | none => none
    | some rt2 => runTrace fuel rt2 ops

/-! ### merkledb `DbOptions` (`src/components/merkledb/src/options.rs`) -/

inductive LogVerbosity where
  | Debug
  | Info
  | Warn
  | Error
  | Fatal
  | Header
deriving DecidableEq, Repr

inductive CompressionType where
  | Bz2
  | Lz4
  | Lz4hc
  | Snappy
  | Zlib
  | Zstd
  | None
deriving DecidableEq, Repr

structure DbOptions where
  max_open_files : Option Int
  create_if_missing : Bool
  compression_type : CompressionType
  max_total_wal_size : Option Nat
  log_verbosity : Option LogVerbosity
  max_log_file_size : Option Nat
  keep_log_file_num : Option Nat
  recycle_log_file_num : Option Nat
deriving DecidableEq, Repr

/-- `DbOptions::new`. -/
def DbOptions.new (max_open_files : Option Int) (create_if_missing : Bool)
    (compression_type : CompressionType) (max_total_wal_size : Option Nat)
    (log_verbosity : Option LogVerbosity) (max_log_file_size : Option Nat)
    (keep_log_file_num : Option Nat) (recycle_log_file_num : Option Nat) : DbOptions :=
  { max_open_files, create_if_missing, compression_type, max_total_wal_size,
    log_verbosity, max_log_file_size, keep_log_file_num, recycle_log_file_num }

/-- `impl Default for DbOptions`. -/
def DbOptions.default : DbOptions :=
  DbOptions.new Option.none true CompressionType.None Option.none Option.none
    Option.none Option.none Option.none

/-! ### CLI `optimize_config` (`src/cli/src/command/optimize_config.rs`)

Paths are lists of characters (treated as bare file names, so that
`Path::with_extension` acts on the whole string); the file system is an
association list from paths to file data. Serialization of a config file is
kept abstract: a stored file either holds a parsed `NodeConfig` or opaque
non-config data. -/

abbrev FPath := List Char

/-- Modelled from the spec: `NodeConfig` / its private section are not under
`src/`; the tool only touches `private_config.database` (a `DbOptions`), the
rest of the configuration is carried opaquely. -/
structure NodePrivateConfig where
  database : DbOptions
  restPrivate : String
deriving DecidableEq, Repr

/-- Modelled from the spec: see `NodePrivateConfig`. -/
structure NodeConfig where
  private_config : NodePrivateConfig
  restPublic : String
deriving DecidableEq, Repr

/-- Contents of a file in the modelled file system. -/
inductive FileData where
  | config (c : NodeConfig)
  | nonConfig (s : String)
deriving DecidableEq, Repr

abbrev FileSys := List (FPath × FileData)

/-- Modelled from the spec: the CLI's `anyhow::Error`, split into the failure
classes the spec names (file-system error, parse error, pre-existing temp
file). -/
inductive CliError where
  | ioError (msg : String)
  | parseError (msg : String)
  | tmpFileExists (p : FPath)
deriving DecidableEq, Repr

/-- Modelled from the spec: `load_config_file` (crate `io` module, not under
`src/`) reads and parses the configuration file; a missing file is an I/O
error, a non-config file a parse error. -/
def load_config_file (fs : FileSys) (p : FPath) : Except CliError NodeConfig :=
  match assocFind p fs with
  | Option.none => Except.error (CliError.ioError "failed to read file")
  | Option.some (FileData.config c) => Except.ok c
  | Option.some (FileData.nonConfig _) => Except.error (CliError.parseError "invalid config")

/-- Modelled from the spec: `save_config_file` serializes the configuration
to the given path. `saveOk` is the I/O oracle: when the write fails the
target of the write (the temp file) may be left partially written. -/
def save_config_file (saveOk : Bool) (c : NodeConfig) (p : FPath) (fs : FileSys) :
    Except CliError Unit × FileSys :=
  if saveOk then (Except.ok (), assocInsert p (FileData.config c) fs)
  else (Except.error (CliError.ioError "failed to write file"),
        assocInsert p (FileData.nonConfig "partial write") fs)

/-- `fs::rename`: atomic; on failure (`renameOk = false`) nothing moves. -/
def renameFile (renameOk : Bool) (src dst : FPath) (fs : FileSys) :
    Except CliError Unit × FileSys :=
  if renameOk then
    match assocFind src fs with
    | Option.none => (Except.error (CliError.ioError "rename: no such file"), fs)
    | Option.some d => (Except.ok (), assocInsert dst d (assocRemove src fs))
  else (Except.error (CliError.ioError "failed to rename file"), fs)

/-- The file name portion before the final dot (`Path::file_stem` for
ordinary file names); a name without a dot is its own stem. -/
def fileStem : List Char → List Char
  | [] => []
  | c :: cs =>
    if '.' ∈ cs then c :: fileStem cs
    else if c = '.' then [] else c :: cs

/-- `Path::with_extension`: replace everything after the final dot by the
new extension (the source passes `".tmp"`, i.e. an extension that itself
starts with a dot). -/
def withExtension (p : List Char) (ext : List Char) : List Char :=
  if ext = [] then fileStem p else fileStem p ++ '.' :: ext

/-- The argument of `with_extension` in the source: `".tmp"`. -/
def TMP_EXT : List Char := ['.', 't', 'm', 'p']

/-- `MAX_OPEN_FILES`: maximum number of files that RocksDb may keep open. -/
def MAX_OPEN_FILES : Int := 256

/-- `MAX_TOTAL_WAL_SIZE`: 1 MiB. -/
def MAX_TOTAL_WAL_SIZE : Nat := 1 * (1 <<< 20)

/-- `DEFAULT_LOG_LEVEL` for RocksDb. -/
def DEFAULT_LOG_LEVEL : LogVerbosity := LogVerbosity.Warn

/-- `MAX_LOG_FILE_SIZE`: 10 MiB. -/
def MAX_LOG_FILE_SIZE : Nat := 10 * (1 <<< 20)

/-- `KEEP_LOG_FILE_NUM`. -/
def KEEP_LOG_FILE_NUM : Nat := 10

/-- Rust `Option::or`. -/
def optionOr {A : Type} (o d : Option A) : Option A :=
  match o with
  | Option.some v => Option.some v
  | Option.none => d

/-- `OptimizeConfig` command arguments. -/
structure OptimizeConfig where
  node_config_file : FPath
  output_file : Option FPath
  max_open_files : Option Int
  max_total_wal_size : Option Nat
  log_level : Option LogVerbosity
  max_log_file_size : Option Nat
  keep_log_file_num : Option Nat
  recycle_log_files : Option Bool

/-- Modelled from the spec: `StandardResult` (CLI crate, not under `src/`);
only the variant produced by `OptimizeConfig::execute` is needed. -/
inductive StandardResult where
  | OptimizeConfig (node_config_path : FPath)
deriving DecidableEq, Repr

/-- The field overrides of `OptimizeConfig::execute` (source lines 92-110):
each database option is replaced by the user-supplied value or the fixed
default; `recycle_log_files` maps `true`/`false` to `1`/`0`. -/
def OptimizeConfig.tune (self : OptimizeConfig) (node_config : NodeConfig) : NodeConfig :=
  { node_config with
    private_config :=
      { node_config.private_config with
        database :=
          { node_config.private_config.database with
            max_open_files := optionOr self.max_open_files (Option.some MAX_OPEN_FILES)
            max_total_wal_size :=
              optionOr self.max_total_wal_size (Option.some MAX_TOTAL_WAL_SIZE)
            log_verbosity := optionOr self.log_level (Option.some DEFAULT_LOG_LEVEL)
            max_log_file_size :=
              optionOr self.max_log_file_size (Option.some MAX_LOG_FILE_SIZE)
            keep_log_file_num :=
              optionOr self.keep_log_file_num (Option.some KEEP_LOG_FILE_NUM)
            recycle_log_file_num :=
              self.recycle_log_files.map (fun value => if value then 1 else 0) } } }

/-- `OptimizeConfig::execute`. `saveOk` / `renameOk` are the I/O oracles for
the two file-system writes. -/
def OptimizeConfig.execute (saveOk renameOk : Bool) (self : OptimizeConfig)
    (fs : FileSys) : Except CliError StandardResult × FileSys :=
  match load_config_file fs self.node_config_file with
  | Except.error e => (Except.error e, fs)
  | Except.ok node_config =>
    let node_config2 := self.tune node_config
    let out_file := self.output_file.getD self.node_config_file
    let tmp_file := withExtension out_file TMP_EXT
    if (assocFind tmp_file fs).isSome then
      (Except.error (CliError.tmpFileExists tmp_file), fs)
    else
      match save_config_file saveOk node_config2 tmp_file fs with
      | (Except.error e, fs2) => (Except.error e, fs2)
      | (Except.ok _, fs2) =>
        match renameFile renameOk tmp_file out_file fs2 with
        | (Except.error e, fs3) => (Except.error e, fs3)
        | (Except.ok _, fs3) =>
          (Except.ok (StandardResult.OptimizeConfig out_file), fs3)

/-! ### Derived state forms and concrete instances used by witnesses -/

/-- The runtime state after `init_service` has moved the service out of the
pending pool and bound it to the instance id (source lines 125-126), before
and independently of the outcome of its `initialize` call. -/
def boundState (rt : RustRuntimeInner) (a : RustArtifactSpec) (init : InstanceInitData)
    (svc : Service) : RustRuntimeInner :=
  ⟨assocRemove a rt.services, rt.deployed, assocInsert init.instance_id svc rt.initialized⟩

/-- The `("ledger", 1.0.0)` artifact of the spec's scenario. -/
def a0 : RustArtifactSpec := ⟨"ledger", "1.0.0"⟩

/-- A second artifact for the duplicate-instance-id scenario. -/
def a1 : RustArtifactSpec := ⟨"wallet", "1.0.0"⟩

/-- A concrete domain error raised by a service initializer. -/
def e0 : ExecutionError := ⟨3, "constructor failed"⟩

/-- A service whose bodies immediately succeed. -/
def svcOk : Service :=
  ⟨fun _ => SProg.ret (Except.ok ()), fun _ _ => SProg.ret (Except.ok ())⟩

/-- A second trivially succeeding service. -/
def svcOk2 : Service :=
  ⟨fun _ => SProg.ret (Except.ok ()), fun _ _ => SProg.ret (Except.ok ())⟩

/-- A service whose initializer fails with `e0`. -/
def svcFail : Service :=
  ⟨fun _ => SProg.ret (Except.error e0), fun _ _ => SProg.ret (Except.ok ())⟩

/-- A service whose initializer immediately issues an inter-service
`dispatch_call`. -/
def svcDispatch : Service :=
  ⟨fun _ => SProg.dispatchCall ⟨7, 0⟩ [] (fun r => SProg.ret r),
   fun _ _ => SProg.ret (Except.ok ())⟩

/-- An arbitrary transaction context. -/
def ctx0 : RuntimeContext := ⟨[], 0, 0⟩

/-- Empty runtime with `a0` registered. -/
def rtA : RustRuntimeInner := RustRuntime.add_service RustRuntimeInner.empty a0 svcOk

/-- `rtA` after a successful `start_deploy(a0)`. -/
def rtB : RustRuntimeInner := (RustRuntime.start_deploy rtA (ArtifactSpec.rust a0)).2

/-- `rtB` after a successful `init_service(a0, instance_id = 7)`. -/
def rtC : RustRuntimeInner :=
  match RustRuntime.init_service 5 rtB ctx0 (ArtifactSpec.rust a0) ⟨7, []⟩ with
  | some (_, rt, _) => rt
  | none => RustRuntimeInner.empty

/-- A state in which `a0` is deployed with the failing service pending. -/
def rtF : RustRuntimeInner := ⟨[(a0, svcFail)], [a0], []⟩

/-- A state in which `a0` is deployed with the dispatching service pending. -/
def rtD : RustRuntimeInner := ⟨[(a0, svcDispatch)], [a0], []⟩

/-- A state with two deployed artifacts, both services still pending. -/
def rtTwo : RustRuntimeInner := ⟨[(a0, svcOk), (a1, svcOk2)], [a0, a1], []⟩

/-- `rtTwo` after a successful `init_service(a0, instance_id = 7)`. -/
def rtTwo1 : RustRuntimeInner := boundState rtTwo a0 ⟨7, []⟩ svcOk

/-- Witness trace for the deployment-status claim. -/
def opsC7 : List Op := [Op.addService a0 svcOk, Op.startDeploy (ArtifactSpec.rust a0)]

/-- A concrete node configuration. -/
def cfg0 : NodeConfig :=
  ⟨⟨DbOptions.default, "private rest"⟩, "public rest"⟩

/-- The node configuration file path of the spec's scenario. -/
def pathNode : FPath := "node.toml".toList

/-- The temporary path the tool derives from `pathNode`. -/
def pathTmp : FPath := withExtension pathNode TMP_EXT

/-- `optimize_config` invocation with no explicit overrides. -/
def self0 : OptimizeConfig :=
  ⟨pathNode, Option.none, Option.none, Option.none, Option.none, Option.none,
   Option.none, Option.none⟩

/-- File system holding only the configuration file. -/
def fs0 : FileSys := [(pathNode, FileData.config cfg0)]

/-- File system in which the temporary file already exists. -/
def fs1 : FileSys :=
  [(pathNode, FileData.config cfg0), (pathTmp, FileData.nonConfig "stale")]

/-! ### Helper lemmas: association lists -/

theorem assocFind_insert_self {K V : Type} [DecidableEq K] (k : K) (v : V)
    (l : List (K × V)) : assocFind k (assocInsert k v l) = some v := by
  induction l with
  | nil => simp [assocInsert, assocFind]
  | cons kv rest ih =>
    by_cases h : kv.1 = k
    · simp [assocInsert, h, assocFind]
    · simp [assocInsert, h, assocFind, ih]

theorem assocFind_insert_ne {K V : Type} [DecidableEq K] {k k2 : K} (v : V)
    (l : List (K × V)) (h : k ≠ k2) :
    assocFind k (assocInsert k2 v l) = assocFind k l := by
  induction l with
  | nil => simp [assocInsert, assocFind, Ne.symm h]
  | cons kv rest ih =>
    by_cases h2 : kv.1 = k2
    · simp [assocInsert, h2, assocFind, Ne.symm h]
    · simp [assocInsert, h2, assocFind, ih]

theorem assocFind_remove_self {K V : Type} [DecidableEq K] (k : K)
    (l : List (K × V)) : assocFind k (assocRemove k l) = none := by
  induction l with
  | nil => simp [assocRemove, assocFind]
  | cons kv rest ih =>
    by_cases h : kv.1 = k
    · simpa [assocRemove, h, List.filter] using ih
    · simpa [assocRemove, h, List.filter, assocFind] using ih

theorem assocFind_remove_ne {K V : Type} [DecidableEq K] {k k2 : K}
    (l : List (K × V)) (h : k ≠ k2) :
    assocFind k (assocRemove k2 l) = assocFind k l := by
  induction l with
  | nil => simp [assocRemove, assocFind]
  | cons kv rest ih =>
    by_cases h2 : kv.1 = k2
    · simpa [assocRemove, List.filter, h2, assocFind, Ne.symm h] using ih
    · by_cases h3 : kv.1 = k
      · simp [assocRemove, List.filter, h2, assocFind, h3, h]
      · simpa [assocRemove, List.filter, h2, assocFind, h3] using ih

/-! ### Helper lemmas: runtime operations -/

theorem runProg_mutb_dispatch (fuel : Nat) (rt : RustRuntimeInner) (ctx : RuntimeContext)
    (ci : CallInfo) (payload : List Nat) (k : Except ExecutionError Unit → SProg) :
    runProg fuel rt true ctx (SProg.dispatchCall ci payload k) = none := by
  cases fuel <;> simp [runProg]

theorem execute_mutb (fuel : Nat) (rt : RustRuntimeInner) (ctx : RuntimeContext)
    (ci : CallInfo) (payload : List Nat) :
    RustRuntime.execute fuel rt true ctx ci payload = none := by
  simp [RustRuntime.execute]

theorem execute_unbound (fuel : Nat) (rt : RustRuntimeInner) (ctx : RuntimeContext)
    (ci : CallInfo) (payload : List Nat)
    (h : assocFind ci.instance_id rt.initialized = none) :
    RustRuntime.execute fuel rt false ctx ci payload = none := by
  simp [RustRuntime.execute, h]

theorem execute_bound (fuel : Nat) (rt : RustRuntimeInner) (ctx : RuntimeContext)
    (ci : CallInfo) (payload : List Nat) (svc : Service)
    (h : assocFind ci.instance_id rt.initialized = some svc) :
    RustRuntime.execute fuel rt false ctx ci payload
      = match runProg fuel rt false ctx (svc.call_fn ci.method_id payload) with
        | none => none
        | some (r, ctx2) => some (wrapDispatchResult r, ctx2) := by
  simp [RustRuntime.execute, h]

theorem start_deploy_cases (rt : RustRuntimeInner) (a : RustArtifactSpec) :
    ((assocFind a rt.services).isSome ∧ a ∉ rt.deployed ∧
      RustRuntime.start_deploy rt (ArtifactSpec.rust a)
        = (Except.ok (), { rt with deployed := a :: rt.deployed })) ∨
    ((assocFind a rt.services).isSome ∧ a ∈ rt.deployed ∧
      RustRuntime.start_deploy rt (ArtifactSpec.rust a)
        = (Except.error DeployError.AlreadyDeployed, rt)) ∨
    (assocFind a rt.services = none ∧
      RustRuntime.start_deploy rt (ArtifactSpec.rust a)
        = (Except.error DeployError.FailedToDeploy, rt)) := by
  by_cases hs : (assocFind a rt.services).isSome
  · by_cases hd : a ∈ rt.deployed
    · exact Or.inr (Or.inl ⟨hs, hd, by simp [RustRuntime.start_deploy, hs, hd]⟩)
    · exact Or.inl ⟨hs, hd, by simp [RustRuntime.start_deploy, hs, hd]⟩
  · refine Or.inr (Or.inr ⟨?_, by simp [RustRuntime.start_deploy, hs]⟩)
    cases h2 : assocFind a rt.services with
    | none => rfl
    | some svc => exact absurd (by simp [h2]) hs

theorem init_service_cases (fuel : Nat) (rt : RustRuntimeInner) (ctx : RuntimeContext)
    (a : RustArtifactSpec) (init : InstanceInitData) :
    (a ∉ rt.deployed ∧
      RustRuntime.init_service fuel rt ctx (ArtifactSpec.rust a) init
        = some (Except.error InitError.NotDeployed, rt, ctx)) ∨
    (a ∈ rt.deployed ∧ (∃ svc, assocFind init.instance_id rt.initialized = some svc) ∧
      RustRuntime.init_service fuel rt ctx (ArtifactSpec.rust a) init
        = some (Except.error InitError.ServiceIdExists, rt, ctx)) ∨
    (a ∈ rt.deployed ∧ assocFind init.instance_id rt.initialized = none ∧
      assocFind a rt.services = none ∧
      RustRuntime.init_service fuel rt ctx (ArtifactSpec.rust a) init = none) ∨
    (∃ svc, a ∈ rt.deployed ∧ assocFind init.instance_id rt.initialized = none ∧
      assocFind a rt.services = some svc ∧
      RustRuntime.init_service fuel rt ctx (ArtifactSpec.rust a) init
        = match runProg fuel (boundState rt a init svc) true ctx
            (svc.initialize_fn init.constructor_data) with
          | none => none
          | some (r, ctx2) =>
              some (r.mapError InitError.ExecutionError, boundState rt a init svc, ctx2)) := by
  by_cases hd : a ∈ rt.deployed
  · cases hin : assocFind init.instance_id rt.initialized with
    | some svc2 =>
      exact Or.inr (Or.inl ⟨hd, ⟨svc2, rfl⟩,
        by simp [RustRuntime.init_service, hd, hin]⟩)
    | none =>
      cases hsvc : assocFind a rt.services with
      | none =>
        exact Or.inr (Or.inr (Or.inl ⟨hd, rfl, rfl,
          by simp [RustRuntime.init_service, hd, hin, hsvc]⟩))
      | some svc =>
        refine Or.inr (Or.inr (Or.inr ⟨svc, hd, rfl, rfl, ?_⟩))
        simp only [RustRuntime.init_service, hd, if_true, hin, Option.isSome_none,
          Bool.false_eq_true, if_false, hsvc]
        rw [assocFind_insert_self init.instance_id svc rt.initialized]
        rfl
  · exact Or.inl ⟨hd, by simp [RustRuntime.init_service, hd]⟩

theorem init_service_any_state (fuel : Nat) (rt : RustRuntimeInner) (ctx : RuntimeContext)
    (art : ArtifactSpec) (init : InstanceInitData)
    (out : Except InitError Unit × RustRuntimeInner × RuntimeContext)
    (h : RustRuntime.init_service fuel rt ctx art init = some out) :
    out.2.1 = rt ∨ ∃ a svc, art = ArtifactSpec.rust a ∧
      assocFind init.instance_id rt.initialized = none ∧
      assocFind a rt.services = some svc ∧ out.2.1 = boundState rt a init svc := by
  cases art with
  | otherRuntime s =>
    simp [RustRuntime.init_service] at h
    exact Or.inl (by rw [← h])
  | rust a =>
    rcases init_service_cases fuel rt ctx a init with
      ⟨_, h2⟩ | ⟨_, _, h2⟩ | ⟨_, _, _, h2⟩ | ⟨svc, _, hin, hsvc, h2⟩
    · have h3 := Option.some.inj (h.symm.trans h2)
      exact Or.inl (by rw [h3])
    · have h3 := Option.some.inj (h.symm.trans h2)
      exact Or.inl (by rw [h3])
    · exact absurd (h.symm.trans h2) (by simp)
    · cases hrun : runProg fuel (boundState rt a init svc) true ctx
        (svc.initialize_fn init.constructor_data) with
      | none => rw [hrun] at h2; exact absurd (h.symm.trans h2) (by simp)
      | some rc =>
        rw [hrun] at h2
        have h3 := Option.some.inj (h.symm.trans h2)
        exact Or.inr ⟨a, svc, rfl, hin, hsvc, by rw [h3]⟩

theorem init_service_deployed_eq (fuel : Nat) (rt : RustRuntimeInner) (ctx : RuntimeContext)
    (art : ArtifactSpec) (init : InstanceInitData)
    (out : Except InitError Unit × RustRuntimeInner × RuntimeContext)
    (h : RustRuntime.init_service fuel rt ctx art init = some out) :
    out.2.1.deployed = rt.deployed := by
  rcases init_service_any_state fuel rt ctx art init out h with h2 | ⟨a, svc, _, _, _, h2⟩
  · rw [h2]
  · rw [h2]; rfl

theorem init_service_preserves_bindings (fuel : Nat) (rt : RustRuntimeInner)
    (ctx : RuntimeContext) (art : ArtifactSpec) (init : InstanceInitData)
    (out : Except InitError Unit × RustRuntimeInner × RuntimeContext)
    (h : RustRuntime.init_service fuel rt ctx art init = some out)
    (id : ServiceInstanceId) (svc : Service)
    (hb : assocFind id rt.initialized = some svc) :
    assocFind id out.2.1.initialized = some svc := by
  rcases init_service_any_state fuel rt ctx art init out h with
    h2 | ⟨a, svc2, _, hin, _, h2⟩
  · rw [h2]; exact hb
  · rw [h2]
    have hne : id ≠ init.instance_id := by
      intro he; rw [he, hin] at hb; exact Option.noConfusion hb
    show assocFind id (assocInsert init.instance_id svc2 rt.initialized) = some svc
    rw [assocFind_insert_ne svc2 rt.initialized hne]
    exact hb

theorem init_service_consumes (fuel : Nat) (rt : RustRuntimeInner) (ctx : RuntimeContext)
    (a : RustArtifactSpec) (init : InstanceInitData)
    (out : Except InitError Unit × RustRuntimeInner × RuntimeContext)
    (h : RustRuntime.init_service fuel rt ctx (ArtifactSpec.rust a) init = some out)
    (hd : a ∈ rt.deployed)
    (hin : assocFind init.instance_id rt.initialized = none) :
    assocFind a out.2.1.services = none := by
  rcases init_service_cases fuel rt ctx a init with
    ⟨hnd, _⟩ | ⟨_, ⟨svc2, hsome⟩, _⟩ | ⟨_, _, _, h2⟩ | ⟨svc, _, _, hsvc, h2⟩
  · exact absurd hd hnd
  · rw [hin] at hsome; exact Option.noConfusion hsome
  · exact absurd (h.symm.trans h2) (by simp)
  · cases hrun : runProg fuel (boundState rt a init svc) true ctx
      (svc.initialize_fn init.constructor_data) with
    | none => rw [hrun] at h2; exact absurd (h.symm.trans h2) (by simp)
    | some rc =>
      rw [hrun] at h2
      have h3 := Option.some.inj (h.symm.trans h2)
      rw [h3]
      show assocFind a (assocRemove a rt.services) = none
      exact assocFind_remove_self a rt.services

theorem init_service_consumed_panics (fuel : Nat) (rt : RustRuntimeInner)
    (ctx : RuntimeContext) (a : RustArtifactSpec) (init : InstanceInitData)
    (hd : a ∈ rt.deployed)
    (hin : assocFind init.instance_id rt.initialized = none)
    (hsvc : assocFind a rt.services = none) :
    RustRuntime.init_service fuel rt ctx (ArtifactSpec.rust a) init = none := by
  simp [RustRuntime.init_service, hd, hin, hsvc]

theorem init_service_ok_state (fuel : Nat) (rt : RustRuntimeInner) (ctx : RuntimeContext)
    (a : RustArtifactSpec) (init : InstanceInitData) (rt2 : RustRuntimeInner)
    (ctx2 : RuntimeContext)
    (h : RustRuntime.init_service fuel rt ctx (ArtifactSpec.rust a) init
      = some (Except.ok (), rt2, ctx2)) :
    ∃ svc, assocFind a rt.services = some svc ∧ rt2 = boundState rt a init svc ∧
      assocFind init.instance_id rt2.initialized = some svc := by
  rcases init_service_cases fuel rt ctx a init with
    ⟨_, h2⟩ | ⟨_, _, h2⟩ | ⟨_, _, _, h2⟩ | ⟨svc, _, _, hsvc, h2⟩
  · exact absurd (h.symm.trans h2) (by simp)
  · exact absurd (h.symm.trans h2) (by simp)
  · exact absurd (h.symm.trans h2) (by simp)
  · cases hrun : runProg fuel (boundState rt a init svc) true ctx
      (svc.initialize_fn init.constructor_data) with
    | none => rw [hrun] at h2; exact absurd (h.symm.trans h2) (by simp)
    | some rc =>
      rw [hrun] at h2
      have h3 := Option.some.inj (h.symm.trans h2)
      injection h3 with h4 h5
      injection h5 with h6 h7
      cases hr : rc.1 with
      | error e => rw [hr] at h4; simp [Except.mapError] at h4
      | ok u =>
        refine ⟨svc, hsvc, h6, ?_⟩
        rw [h6]
        exact assocFind_insert_self _ _ _

theorem step_deployed_mono (fuel : Nat) (rt : RustRuntimeInner) (op : Op)
    (rt2 : RustRuntimeInner) (h : Op.step fuel rt op = some rt2) (a : RustArtifactSpec)
    (ha : a ∈ rt.deployed) : a ∈ rt2.deployed := by
  cases op with
  | addService b svc =>
    simp [Op.step] at h
    rw [← h]
    exact ha
  | startDeploy art =>
    simp [Op.step] at h
    rw [← h]
    cases art with
    | otherRuntime s => exact ha
    | rust b =>
      rcases start_deploy_cases rt b with ⟨_, _, he⟩ | ⟨_, _, he⟩ | ⟨_, he⟩
      · rw [he]; exact List.mem_cons_of_mem b ha
      · rw [he]; exact ha
      · rw [he]; exact ha
  | checkStatus art =>
    simp [Op.step] at h
    rw [← h]
    exact ha
  | initService ctx art init =>
    cases hi : RustRuntime.init_service fuel rt ctx art init with
    | none => rw [Op.step, hi] at h; exact absurd h (by simp)
    | some out =>
      rw [Op.step, hi] at h
      have h2 : out.2.1 = rt2 := by
        cases out with
        | mk r rest => cases rest with
          | mk rt3 c3 => exact Option.some.inj h
      rw [← h2, init_service_deployed_eq fuel rt ctx art init out hi]
      exact ha
  | execCall ctx ci payload =>
    cases he : RustRuntime.execute fuel rt false ctx ci payload with
    | none => rw [Op.step, he] at h; exact absurd h (by simp)
    | some r =>
      rw [Op.step, he] at h
      rw [← Option.some.inj h]
      exact ha

theorem step_deploy_new (fuel : Nat) (rt : RustRuntimeInner) (op : Op)
    (rt2 : RustRuntimeInner) (a : RustArtifactSpec) (h : Op.step fuel rt op = some rt2)
    (ha : a ∉ rt.deployed) (ha2 : a ∈ rt2.deployed) :
    op = Op.startDeploy (ArtifactSpec.rust a) ∧
      (RustRuntime.start_deploy rt (ArtifactSpec.rust a)).1 = Except.ok () := by
  cases op with
  | addService b svc =>
    simp [Op.step] at h
    rw [← h] at ha2
    exact absurd ha2 ha
  | startDeploy art =>
    simp [Op.step] at h
    rw [← h] at ha2
    cases art with
    | otherRuntime s => exact absurd ha2 ha
    | rust b =>
      rcases start_deploy_cases rt b with ⟨_, _, he⟩ | ⟨_, _, he⟩ | ⟨_, he⟩
      · rw [he] at ha2
        have hab : a = b ∨ a ∈ rt.deployed := by simpa using ha2
        have hab2 : a = b := hab.resolve_right ha
        subst hab2
        exact ⟨rfl, by rw [he]⟩
      · rw [he] at ha2; exact absurd ha2 ha
      · rw [he] at ha2; exact absurd ha2 ha
  | checkStatus art =>
    simp [Op.step] at h
    rw [← h] at ha2
    exact absurd ha2 ha
  | initService ctx art init =>
    cases hi : RustRuntime.init_service fuel rt ctx art init with
    | none => rw [Op.step, hi] at h; exact absurd h (by simp)
    | some out =>
      rw [Op.step, hi] at h
      have h2 : out.2.1 = rt2 := by
        cases out with
        | mk r rest => cases rest with
          | mk rt3 c3 => exact Option.some.inj h
      rw [← h2, init_service_deployed_eq fuel rt ctx art init out hi] at ha2
      exact absurd ha2 ha
  | execCall ctx ci payload =>
    cases he : RustRuntime.execute fuel rt false ctx ci payload with
    | none => rw [Op.step, he] at h; exact absurd h (by simp)
    | some r =>
      rw [Op.step, he] at h
      rw [← Option.some.inj h] at ha2
      exact absurd ha2 ha

theorem check_deploy_status_mem (rt : RustRuntimeInner) (a : RustArtifactSpec)
    (h : a ∈ rt.deployed) :
    RustRuntime.check_deploy_status rt (ArtifactSpec.rust a)
      = Except.ok DeployStatus.Deployed := by
  simp [RustRuntime.check_deploy_status, h]

theorem check_deploy_status_not_mem (rt : RustRuntimeInner) (a : RustArtifactSpec)
    (h : a ∉ rt.deployed) :
    RustRuntime.check_deploy_status rt (ArtifactSpec.rust a)
      = Except.error DeployError.FailedToDeploy := by
  simp [RustRuntime.check_deploy_status, h]

theorem runTrace_deployed_iff (fuel : Nat) (a : RustArtifactSpec) :
    ∀ (ops : List Op) (rt0 rt3 : RustRuntimeInner),
    runTrace fuel rt0 ops = some rt3 →
    (a ∈ rt3.deployed ↔ a ∈ rt0.deployed ∨
      ∃ pre op post rt1, ops = pre ++ op :: post ∧
        runTrace fuel rt0 pre = some rt1 ∧
        op = Op.startDeploy (ArtifactSpec.rust a) ∧
        (RustRuntime.start_deploy rt1 (ArtifactSpec.rust a)).1 = Except.ok ()) := by
  intro ops
  induction ops with
  | nil =>
    intro rt0 rt3 h
    have h2 : rt0 = rt3 := Option.some.inj (by simpa [runTrace] using h)
    subst h2
    constructor
    · exact fun h3 => Or.inl h3
    · rintro (h3 | ⟨pre, op, post, rt1, hsplit, _⟩)
      · exact h3
      · cases pre <;> simp at hsplit
  | cons op ops ih =>
    intro rt0 rt3 h
    rw [runTrace] at h
    cases hstep : Op.step fuel rt0 op with
    | none => rw [hstep] at h; exact absurd h (by simp)
    | some rt1h =>
      rw [hstep] at h
      have IH := ih rt1h rt3 h
      constructor
      · intro h3
        rcases IH.mp h3 with hmem | ⟨pre, op2, post, rt1, hsplit, htr, hop, hok⟩
        · by_cases hmem0 : a ∈ rt0.deployed
          · exact Or.inl hmem0
          · obtain ⟨hop, hok⟩ := step_deploy_new fuel rt0 op rt1h a hstep hmem0 hmem
            exact Or.inr ⟨[], op, ops, rt0, by simp, by simp [runTrace], hop, hok⟩
        · refine Or.inr ⟨op :: pre, op2, post, rt1, by simp [hsplit], ?_, hop, hok⟩
          rw [runTrace, hstep]
          exact htr
      · rintro (hmem0 | ⟨pre, op2, post, rt1, hsplit, htr, hop, hok⟩)
        · exact IH.mpr (Or.inl (step_deployed_mono fuel rt0 op rt1h hstep a hmem0))
        · cases pre with
          | nil =>
            have hop2 : op = op2 := by simpa using congrArg (fun l => l.head?) hsplit
            have hops : ops = post := by simpa using congrArg (fun l => l.tail) hsplit
            have hrt1 : rt0 = rt1 := Option.some.inj (by simpa [runTrace] using htr)
            subst hop2
            subst hrt1
            subst hop
            refine IH.mpr (Or.inl ?_)
            rcases start_deploy_cases rt0 a with ⟨_, _, he⟩ | ⟨_, _, he⟩ | ⟨_, he⟩
            · have hstep2 : (RustRuntime.start_deploy rt0 (ArtifactSpec.rust a)).2
                  = rt1h := by simpa [Op.step] using hstep
              rw [he] at hstep2
              rw [← hstep2]
              exact List.mem_cons_self a rt0.deployed
            · rw [he] at hok; exact absurd hok (by simp)
            · rw [he] at hok; exact absurd hok (by simp)
          | cons op3 pre2 =>
            have hop3 : op = op3 := by simpa using congrArg (fun l => l.head?) hsplit
            have hops : ops = pre2 ++ op2 :: post := by
              simpa using congrArg (fun l => l.tail) hsplit
            subst hop3
            rw [runTrace, hstep] at htr
            exact IH.mpr (Or.inr ⟨pre2, op2, post, rt1, hops, htr, hop, hok⟩)

theorem fileStem_ext_ne (ext : List Char) (hdot : '.' ∈ ext) :
    ∀ p : List Char, fileStem p ++ '.' :: ext ≠ p := by
  intro p
  induction p with
  | nil => simp [fileStem]
  | cons c cs ih =>
    intro he
    by_cases h : '.' ∈ cs
    · simp only [fileStem, h, if_true, List.cons_append, List.cons.injEq, true_and] at he
      exact ih he
    · by_cases h2 : c = '.'
      · simp only [fileStem, h, if_false, h2, if_true, List.nil_append,
          List.cons.injEq] at he
        exact h (he.2 ▸ hdot)
      · simp only [fileStem, h, if_false, h2, List.cons_append, List.cons.injEq,
          true_and] at he
        have hlen := congrArg List.length he
        simp at hlen
    
theorem withExtension_tmp_ne (p : List Char) : withExtension p TMP_EXT ≠ p := by
  have hne : TMP_EXT ≠ [] := by decide
  have hdot : '.' ∈ TMP_EXT := by decide
  simpa [withExtension, hne] using fileStem_ext_ne TMP_EXT hdot p

theorem step_preserves_bindings (fuel : Nat) (rt : RustRuntimeInner) (op : Op)
    (rt2 : RustRuntimeInner) (h : Op.step fuel rt op = some rt2)
    (id : ServiceInstanceId) (svc : Service)
    (hb : assocFind id rt.initialized = some svc) :
    assocFind id rt2.initialized = some svc := by
  cases op with
  | addService b svc2 =>
    simp [Op.step] at h
    rw [← h]
    exact hb
  | startDeploy art =>
    simp [Op.step] at h
    rw [← h]
    cases art with
    | otherRuntime s => exact hb
    | rust b =>
      rcases start_deploy_cases rt b with ⟨_, _, he⟩ | ⟨_, _, he⟩ | ⟨_, he⟩
      · rw [he]; exact hb
      · rw [he]; exact hb
      · rw [he]; exact hb
  | checkStatus art =>
    simp [Op.step] at h
    rw [← h]
    exact hb
  | initService ctx art init =>
    cases hi : RustRuntime.init_service fuel rt ctx art init with
    | none => rw [Op.step, hi] at h; exact absurd h (by simp)
    | some out =>
      rw [Op.step, hi] at h
      have h2 : out.2.1 = rt2 := by
        cases out with
        | mk r rest => cases rest with
          | mk rt3 c3 => exact Option.some.inj h
      rw [← h2]
      exact init_service_preserves_bindings fuel rt ctx art init out hi id svc hb
  | execCall ctx ci payload =>
    cases he : RustRuntime.execute fuel rt false ctx ci payload with
    | none => rw [Op.step, he] at h; exact absurd h (by simp)
    | some r =>
      rw [Op.step, he] at h
      rw [← Option.some.inj h]
      exact hb

theorem check_deploy_ok_iff_mem (rt : RustRuntimeInner) (a : RustArtifactSpec) :
    RustRuntime.check_deploy_status rt (ArtifactSpec.rust a)
      = Except.ok DeployStatus.Deployed ↔ a ∈ rt.deployed := by
  by_cases h : a ∈ rt.deployed <;> simp [RustRuntime.check_deploy_status, h]

/-! ### Claim theorems -/

/-- C1: for every runtime state whose running-instance table has no binding
for the target instance id (no successful `init_service` ever bound it),
`execute` hits the source's unchecked `.unwrap()` on the lookup and panics
(modelled as `none`). The spec claims a retrievable typed `ExecutionError`
and "never panics"; the code's behaviour, proved here, is the panic. -/
theorem C1_execute_unbound_panics (fuel : Nat) (rt : RustRuntimeInner)
    (ctx : RuntimeContext) (ci : CallInfo) (payload : List Nat)
    (h : assocFind ci.instance_id rt.initialized = none) :
    RustRuntime.execute fuel rt false ctx ci payload = none :=
  execute_unbound fuel rt ctx ci payload h

/-- C1 witness: the concrete failing input — the empty runtime and instance
id 0, which was never bound. -/
theorem C1_witness :
    RustRuntime.execute 5 RustRuntimeInner.empty false ctx0 ⟨0, 0⟩ [] = none :=
  C1_execute_unbound_panics 5 RustRuntimeInner.empty ctx0 ⟨0, 0⟩ [] rfl

/-- C2 counterexample: register `a0`, deploy it (success), initialize an
instance of it (success, consuming the service value); the next
`start_deploy(a0)` then fails with `FailedToDeploy`, not `AlreadyDeployed`
as the claim demands. -/
theorem C2_counterexample :
    (RustRuntime.start_deploy rtA (ArtifactSpec.rust a0)).1 = Except.ok () ∧
    (RustRuntime.init_service 5 rtB ctx0 (ArtifactSpec.rust a0) ⟨7, []⟩).map
        (fun out => out.1) = some (Except.ok ()) ∧
    (RustRuntime.start_deploy rtC (ArtifactSpec.rust a0)).1
      = Except.error DeployError.FailedToDeploy ∧
    (Except.error DeployError.FailedToDeploy : Except DeployError Unit)
      ≠ Except.error DeployError.AlreadyDeployed := by
  refine ⟨rfl, rfl, rfl, fun h => ?_⟩
  exact DeployError.noConfusion (Except.error.inj h)

/-- C2 (amended): for every artifact with a registered service the first
`start_deploy` succeeds; a repeated `start_deploy` fails with
`AlreadyDeployed` as long as the artifact's service is still registered; but
after an intervening `init_service` has consumed the service value, a
repeated `start_deploy` fails with `FailedToDeploy` instead. -/
theorem C2_start_deploy_amended :
    (∀ rt a, (assocFind a rt.services).isSome → a ∉ rt.deployed →
      (RustRuntime.start_deploy rt (ArtifactSpec.rust a)).1 = Except.ok () ∧
      a ∈ (RustRuntime.start_deploy rt (ArtifactSpec.rust a)).2.deployed) ∧
    (∀ rt a, (assocFind a rt.services).isSome → a ∈ rt.deployed →
      (RustRuntime.start_deploy rt (ArtifactSpec.rust a)).1
        = Except.error DeployError.AlreadyDeployed) ∧
    (∀ rt a, assocFind a rt.services = none →
      (RustRuntime.start_deploy rt (ArtifactSpec.rust a)).1
        = Except.error DeployError.FailedToDeploy) ∧
    (∀ fuel rt ctx a init out,
      RustRuntime.init_service fuel rt ctx (ArtifactSpec.rust a) init = some out →
      a ∈ rt.deployed → assocFind init.instance_id rt.initialized = none →
      assocFind a out.2.1.services = none) := by
  refine ⟨?_, ?_, ?_, ?_⟩
  · intro rt a hs hd
    rcases start_deploy_cases rt a with ⟨_, _, he⟩ | ⟨_, hd2, _⟩ | ⟨hn, _⟩
    · exact ⟨by rw [he], by rw [he]; exact List.mem_cons_self a rt.deployed⟩
    · exact absurd hd2 hd
    · rw [hn] at hs; exact absurd hs (by simp)
  · intro rt a hs hd
    rcases start_deploy_cases rt a with ⟨_, hd2, _⟩ | ⟨_, _, he⟩ | ⟨hn, _⟩
    · exact absurd hd hd2
    · rw [he]
    · rw [hn] at hs; exact absurd hs (by simp)
  · intro rt a hn
    rcases start_deploy_cases rt a with ⟨hs, _, _⟩ | ⟨hs, _, _⟩ | ⟨_, he⟩
    · rw [hn] at hs; exact absurd hs (by simp)
    · rw [hn] at hs; exact absurd hs (by simp)
    · rw [he]
  · exact fun fuel rt ctx a init out h hd hin =>
      init_service_consumes fuel rt ctx a init out h hd hin

/-- C2 witness: the amended behaviour at concrete states — fresh artifact
(success), repeat while service registered (`AlreadyDeployed`), repeat after
`init_service` consumed the service (`FailedToDeploy`). -/
theorem C2_witness :
    (RustRuntime.start_deploy rtA (ArtifactSpec.rust a0)).1 = Except.ok () ∧
    (RustRuntime.start_deploy rtB (ArtifactSpec.rust a0)).1
      = Except.error DeployError.AlreadyDeployed ∧
    (RustRuntime.start_deploy rtC (ArtifactSpec.rust a0)).1
      = Except.error DeployError.FailedToDeploy :=
  ⟨(C2_start_deploy_amended.1 rtA a0 rfl (by simp [rtA, RustRuntime.add_service,
      RustRuntimeInner.empty])).1,
   C2_start_deploy_amended.2.1 rtB a0 rfl (by decide),
   C2_start_deploy_amended.2.2.1 rtC a0 rfl⟩

/-- C3 counterexample: after a successful `init_service(a0, 7)` the artifact
is still deployed and instance id 8 is fresh, yet a second
`init_service(a0, 8)` panics (the unchecked `unwrap` of
`services.remove`, modelled as `none`) instead of returning a typed
result as the claim demands. -/
theorem C3_counterexample :
    a0 ∈ rtC.deployed ∧ assocFind 8 rtC.initialized = none ∧
    RustRuntime.init_service 5 rtC ctx0 (ArtifactSpec.rust a0) ⟨8, []⟩ = none :=
  ⟨by decide, rfl, rfl⟩

/-- C3 (amended): a deployed artifact supports at most one `init_service`:
the first success consumes the service value, and a second `init_service`
for the same deployed artifact with a fresh instance id panics (unchecked
`unwrap`, modelled as `none`) rather than returning a typed result. The
preservation half of the claim holds: no operation removes a deployment or
un-binds an instance. -/
theorem C3_amended_lifecycle :
    (∀ fuel rt ctx a init, a ∈ rt.deployed →
      assocFind init.instance_id rt.initialized = none →
      assocFind a rt.services = none →
      RustRuntime.init_service fuel rt ctx (ArtifactSpec.rust a) init = none) ∧
    (∀ fuel rt ctx a init out,
      RustRuntime.init_service fuel rt ctx (ArtifactSpec.rust a) init = some out →
      a ∈ rt.deployed → assocFind init.instance_id rt.initialized = none →
      assocFind a out.2.1.services = none) ∧
    (∀ fuel rt op rt2 a, Op.step fuel rt op = some rt2 →
      a ∈ rt.deployed → a ∈ rt2.deployed) ∧
    (∀ fuel rt op rt2 id svc, Op.step fuel rt op = some rt2 →
      assocFind id rt.initialized = some svc →
      assocFind id rt2.initialized = some svc) :=
  ⟨fun fuel rt ctx a init hd hin hsvc =>
      init_service_consumed_panics fuel rt ctx a init hd hin hsvc,
   fun fuel rt ctx a init out h hd hin =>
      init_service_consumes fuel rt ctx a init out h hd hin,
   fun fuel rt op rt2 a h ha => step_deployed_mono fuel rt op rt2 h a ha,
   fun fuel rt op rt2 id svc h hb => step_preserves_bindings fuel rt op rt2 h id svc hb⟩

/-- C3 witness: the panic clause applied at a concrete consumed-service
state, and preservation applied at a concrete step. -/
theorem C3_witness :
    RustRuntime.init_service 6 rtC ctx0 (ArtifactSpec.rust a0) ⟨9, []⟩ = none ∧
    a0 ∈ rtC.deployed :=
  ⟨C3_amended_lifecycle.1 6 rtC ctx0 a0 ⟨9, []⟩ (by decide) rfl rfl,
   C3_amended_lifecycle.2.2.1 5 rtB (Op.initService ctx0 (ArtifactSpec.rust a0) ⟨7, []⟩)
     rtC a0 rfl (by decide)⟩

/-- C4: if a deployed artifact's service is registered, the instance id is
fresh, and the service's `initialize` run (under the outstanding mutable
borrow) returns a domain error `e`, then `init_service` returns
`InitError::ExecutionError e`, and the instance nevertheless remains
registered in the running-instance table and reachable by future `execute`
calls (bind-then-initialize ordering). -/
theorem C4_failed_init_leaves_instance_bound (fuel : Nat) (rt : RustRuntimeInner)
    (ctx : RuntimeContext) (a : RustArtifactSpec) (init : InstanceInitData)
    (svc : Service) (e : ExecutionError) (ctx2 : RuntimeContext)
    (hd : a ∈ rt.deployed)
    (hin : assocFind init.instance_id rt.initialized = none)
    (hsvc : assocFind a rt.services = some svc)
    (hrun : runProg fuel (boundState rt a init svc) true ctx
        (svc.initialize_fn init.constructor_data) = some (Except.error e, ctx2)) :
    RustRuntime.init_service fuel rt ctx (ArtifactSpec.rust a) init
      = some (Except.error (InitError.ExecutionError e), boundState rt a init svc, ctx2) ∧
    assocFind init.instance_id (boundState rt a init svc).initialized = some svc ∧
    (∀ fuel2 ctx3 m payload,
      RustRuntime.execute fuel2 (boundState rt a init svc) false ctx3
          ⟨init.instance_id, m⟩ payload
        = match runProg fuel2 (boundState rt a init svc) false ctx3
            (svc.call_fn m payload) with
          | none => none
          | some (r, c) => some (wrapDispatchResult r, c)) := by
  refine ⟨?_, assocFind_insert_self init.instance_id svc rt.initialized, ?_⟩
  · rcases init_service_cases fuel rt ctx a init with
      ⟨hnd, _⟩ | ⟨_, ⟨svc2, hsome⟩, _⟩ | ⟨_, _, hn, _⟩ | ⟨svc2, _, _, hsvc2, h2⟩
    · exact absurd hd hnd
    · rw [hin] at hsome; exact Option.noConfusion hsome
    · rw [hsvc] at hn; exact Option.noConfusion hn
    · have hsame : svc2 = svc := Option.some.inj (hsvc2.symm.trans hsvc)
      subst hsame
      rw [hrun] at h2
      exact h2
  · intro fuel2 ctx3 m payload
    exact execute_bound fuel2 (boundState rt a init svc) ctx3 ⟨init.instance_id, m⟩
      payload svc (assocFind_insert_self init.instance_id svc rt.initialized)

/-- C4 witness: at the concrete deployed state `rtF` whose service's
initializer fails with `e0`, the instance stays bound to id 7. -/
theorem C4_witness :
    RustRuntime.init_service 5 rtF ctx0 (ArtifactSpec.rust a0) ⟨7, []⟩
      = some (Except.error (InitError.ExecutionError e0),
          boundState rtF a0 ⟨7, []⟩ svcFail, ctx0) ∧
    assocFind 7 (boundState rtF a0 ⟨7, []⟩ svcFail).initialized = some svcFail :=
  ⟨(C4_failed_init_leaves_instance_bound 5 rtF ctx0 a0 ⟨7, []⟩ svcFail e0 ctx0
      (by decide) rfl rfl rfl).1,
   (C4_failed_init_leaves_instance_bound 5 rtF ctx0 a0 ⟨7, []⟩ svcFail e0 ctx0
      (by decide) rfl rfl rfl).2.1⟩

/-- C5: `dispatch_call` is literally a re-entry into the runtime's `execute`
on the very same underlying `RuntimeContext` (first conjunct), and the
interpretation of a `dispatch_call` action inside a running service body
threads the one shared context through the nested `execute` and hands its
updated state to the continuation — never a fresh, independent view
(second conjunct). -/
theorem C5_dispatch_call_reenters_execute :
    (∀ fuel tc dispatch payload,
      TransactionContext.dispatch_call fuel tc dispatch payload
        = RustRuntime.execute fuel tc.runtime tc.mutablyBorrowed tc.env_context
            dispatch payload) ∧
    (∀ fuel rt mutb ctx ci payload k,
      runProg (fuel + 1) rt mutb ctx (SProg.dispatchCall ci payload k)
        = match RustRuntime.execute fuel rt mutb ctx ci payload with
          | none => none
          | some rc => runProg fuel rt mutb rc.2 (k rc.1)) := by
  refine ⟨fun fuel tc dispatch payload => rfl, ?_⟩
  intro fuel rt mutb ctx ci payload k
  cases mutb with
  | true => simp [runProg, RustRuntime.execute]
  | false =>
    cases hf : assocFind ci.instance_id rt.initialized with
    | none => simp [runProg, RustRuntime.execute, hf]
    | some inst =>
      cases hr : runProg fuel rt false ctx (inst.call_fn ci.method_id payload) with
      | none => simp [runProg, RustRuntime.execute, hf, hr]
      | some rc => simp [runProg, RustRuntime.execute, hf, hr]

/-- C6: if a first `init_service` succeeded binding `init1.instance_id` and a
second `init_service` (any deployed artifact) reuses the same instance id,
the second call fails with `ServiceIdExists`, returns the runtime state
unchanged, and the first instance's bound service still dispatches `execute`
calls exactly as before. -/
theorem C6_duplicate_instance_id (fuel fuel2 : Nat) (rt0 : RustRuntimeInner)
    (ctx ctx1a ctx2 : RuntimeContext) (art1 art2 : RustArtifactSpec)
    (init1 init2 : InstanceInitData) (rt1 : RustRuntimeInner)
    (hid : init2.instance_id = init1.instance_id)
    (h1 : RustRuntime.init_service fuel rt0 ctx (ArtifactSpec.rust art1) init1
      = some (Except.ok (), rt1, ctx1a))
    (hd2 : art2 ∈ rt1.deployed) :
    RustRuntime.init_service fuel2 rt1 ctx2 (ArtifactSpec.rust art2) init2
      = some (Except.error InitError.ServiceIdExists, rt1, ctx2) ∧
    ∃ svc1, assocFind init1.instance_id rt1.initialized = some svc1 ∧
      (∀ fuel3 ctx3 m payload,
        RustRuntime.execute fuel3 rt1 false ctx3 ⟨init1.instance_id, m⟩ payload
          = match runProg fuel3 rt1 false ctx3 (svc1.call_fn m payload) with
            | none => none
            | some (r, c) => some (wrapDispatchResult r, c)) := by
  obtain ⟨svc1, hsvc1, hrt1, hbound⟩ :=
    init_service_ok_state fuel rt0 ctx art1 init1 rt1 ctx1a h1
  refine ⟨?_, svc1, hbound, ?_⟩
  · simp [RustRuntime.init_service, hd2, hid, hbound]
  · intro fuel3 ctx3 m payload
    exact execute_bound fuel3 rt1 ctx3 ⟨init1.instance_id, m⟩ payload svc1 hbound

/-- C6 witness: the spec's scenario — two deployed artifacts, instance id 7
initialized for the first; reusing id 7 for the second fails with
`ServiceIdExists` and leaves the state unchanged. -/
theorem C6_witness :
    RustRuntime.init_service 5 rtTwo1 ctx0 (ArtifactSpec.rust a1) ⟨7, []⟩
      = some (Except.error InitError.ServiceIdExists, rtTwo1, ctx0) :=
  (C6_duplicate_instance_id 5 5 rtTwo ctx0 ctx0 ctx0 a0 a1 ⟨7, []⟩ ⟨7, []⟩ rtTwo1
    rfl rfl (by decide)).1

/-- C7: over every operation trace from the fresh runtime,
`check_deploy_status(A)` (correct-kind artifact) answers only `Deployed` or
`FailedToDeploy`; it answers `Deployed` exactly when a successful
`start_deploy(A)` occurred somewhere in the trace (hence `FailedToDeploy` at
every point before one, and `Deployed` at every point after one,
indefinitely); and membership of `A` in the deployed set, once observed, is
preserved by every further operation. -/
theorem C7_check_deploy_status_trace (a : RustArtifactSpec) (fuel : Nat)
    (ops : List Op) (rt3 : RustRuntimeInner)
    (h : runTrace fuel RustRuntimeInner.empty ops = some rt3) :
    (RustRuntime.check_deploy_status rt3 (ArtifactSpec.rust a)
        = Except.ok DeployStatus.Deployed ∨
      RustRuntime.check_deploy_status rt3 (ArtifactSpec.rust a)
        = Except.error DeployError.FailedToDeploy) ∧
    (RustRuntime.check_deploy_status rt3 (ArtifactSpec.rust a)
        = Except.ok DeployStatus.Deployed ↔
      ∃ pre op post rt1, ops = pre ++ op :: post ∧
        runTrace fuel RustRuntimeInner.empty pre = some rt1 ∧
        op = Op.startDeploy (ArtifactSpec.rust a) ∧
        (RustRuntime.start_deploy rt1 (ArtifactSpec.rust a)).1 = Except.ok ()) ∧
    (∀ op rt4, Op.step fuel rt3 op = some rt4 →
      RustRuntime.check_deploy_status rt3 (ArtifactSpec.rust a)
        = Except.ok DeployStatus.Deployed →
      RustRuntime.check_deploy_status rt4 (ArtifactSpec.rust a)
        = Except.ok DeployStatus.Deployed) := by
  have hiff := runTrace_deployed_iff fuel a ops RustRuntimeInner.empty rt3 h
  have hempty : a ∈ RustRuntimeInner.empty.deployed ↔ False := by
    simp [RustRuntimeInner.empty]
  refine ⟨?_, ?_, ?_⟩
  · by_cases hmem : a ∈ rt3.deployed
    · exact Or.inl (check_deploy_status_mem rt3 a hmem)
    · exact Or.inr (check_deploy_status_not_mem rt3 a hmem)
  · rw [check_deploy_ok_iff_mem rt3 a, hiff, hempty]
    simp
  · intro op rt4 hstep hok
    have hmem : a ∈ rt3.deployed := (check_deploy_ok_iff_mem rt3 a).mp hok
    exact (check_deploy_ok_iff_mem rt4 a).mpr
      (step_deployed_mono fuel rt3 op rt4 hstep a hmem)

/-- C7 witness: a concrete trace (register `a0`, deploy it) after which the
status of `a0` is `Deployed`. -/
theorem C7_witness :
    RustRuntime.check_deploy_status rtB (ArtifactSpec.rust a0)
      = Except.ok DeployStatus.Deployed :=
  (C7_check_deploy_status_trace a0 5 opsC7 rtB rfl).2.1.mpr
    ⟨[Op.addService a0 svcOk], Op.startDeploy (ArtifactSpec.rust a0), [], rtA,
      rfl, rfl, rfl, rfl⟩

/-- C8: `optimize_config` never partially writes the target path. If the
derived temp file already exists, the run fails reporting an error and
leaves the file system untouched (first conjunct); every failing run (I/O,
parse, pre-existing temp file) leaves the target path's content unchanged
(second conjunct); a successful run returns the target path and the target
then holds the complete tuned configuration, installed by the atomic rename
(third conjunct). -/
theorem C8_optimize_config_atomic (saveOk renameOk : Bool) (self : OptimizeConfig)
    (fs : FileSys) :
    ((assocFind (withExtension (self.output_file.getD self.node_config_file) TMP_EXT)
        fs).isSome →
      ∃ e, OptimizeConfig.execute saveOk renameOk self fs = (Except.error e, fs)) ∧
    (∀ e fs2, OptimizeConfig.execute saveOk renameOk self fs = (Except.error e, fs2) →
      assocFind (self.output_file.getD self.node_config_file) fs2
        = assocFind (self.output_file.getD self.node_config_file) fs) ∧
    (∀ res fs2, OptimizeConfig.execute saveOk renameOk self fs = (Except.ok res, fs2) →
      res = StandardResult.OptimizeConfig (self.output_file.getD self.node_config_file) ∧
      ∃ cfg, load_config_file fs self.node_config_file = Except.ok cfg ∧
        assocFind (self.output_file.getD self.node_config_file) fs2
          = some (FileData.config (self.tune cfg))) := by
  have hne : self.output_file.getD self.node_config_file
      ≠ withExtension (self.output_file.getD self.node_config_file) TMP_EXT :=
    Ne.symm (withExtension_tmp_ne (self.output_file.getD self.node_config_file))
  refine ⟨?_, ?_, ?_⟩
  · intro htmp
    cases hload : load_config_file fs self.node_config_file with
    | error e2 => exact ⟨e2, by simp [OptimizeConfig.execute, hload]⟩
    | ok cfg =>
      refine ⟨CliError.tmpFileExists
        (withExtension (self.output_file.getD self.node_config_file) TMP_EXT), ?_⟩
      simp [OptimizeConfig.execute, hload, htmp]
  · intro e fs2 h
    cases hload : load_config_file fs self.node_config_file with
    | error e2 =>
      simp [OptimizeConfig.execute, hload] at h
      rw [h.2]
    | ok cfg =>
      by_cases htmp : (assocFind
          (withExtension (self.output_file.getD self.node_config_file) TMP_EXT)
          fs).isSome
      · simp [OptimizeConfig.execute, hload, htmp] at h
        rw [h.2]
      · cases saveOk with
        | false =>
          simp [OptimizeConfig.execute, hload, htmp, save_config_file] at h
          rw [← h.2]
          exact assocFind_insert_ne _ fs hne
        | true =>
          cases renameOk with
          | false =>
            simp [OptimizeConfig.execute, hload, htmp, save_config_file,
              renameFile] at h
            rw [← h.2]
            exact assocFind_insert_ne _ fs hne
          | true =>
            simp [OptimizeConfig.execute, hload, htmp, save_config_file,
              renameFile, assocFind_insert_self] at h
  · intro res fs2 h
    cases hload : load_config_file fs self.node_config_file with
    | error e2 => simp [OptimizeConfig.execute, hload] at h
    | ok cfg =>
      by_cases htmp : (assocFind
          (withExtension (self.output_file.getD self.node_config_file) TMP_EXT)
          fs).isSome
      · simp [OptimizeConfig.execute, hload, htmp] at h
      · cases saveOk with
        | false =>
          simp [OptimizeConfig.execute, hload, htmp, save_config_file] at h
        | true =>
          cases renameOk with
          | false =>
            simp [OptimizeConfig.execute, hload, htmp, save_config_file,
              renameFile] at h
          | true =>
            simp [OptimizeConfig.execute, hload, htmp, save_config_file,
              renameFile, assocFind_insert_self] at h
            refine ⟨h.1.symm, cfg, rfl, ?_⟩
            rw [← h.2]
            exact assocFind_insert_self _ _ _

/-- C8 witness: with the temp file `node..tmp` already present the run fails
leaving the file system untouched; on a clean file system the run succeeds,
returns the config path and installs the complete tuned configuration. -/
theorem C8_witness :
    (∃ e, OptimizeConfig.execute true true self0 fs1 = (Except.error e, fs1)) ∧
    (StandardResult.OptimizeConfig pathNode = StandardResult.OptimizeConfig pathNode ∧
      ∃ cfg, load_config_file fs0 pathNode = Except.ok cfg ∧
        assocFind pathNode [(pathNode, FileData.config (self0.tune cfg0))]
          = some (FileData.config (self0.tune cfg))) :=
  ⟨(C8_optimize_config_atomic true true self0 fs1).1 rfl,
   (C8_optimize_config_atomic true true self0 fs0).2.2
     (StandardResult.OptimizeConfig pathNode)
     [(pathNode, FileData.config (self0.tune cfg0))] rfl⟩

/-- C9 counterexample: the claim's conjunction fails on the code —
`DbOptions::default()` leaves `log_verbosity` unset (`None`) rather than
setting it to the info level. -/
theorem C9_counterexample :
    ¬(DbOptions.default.max_open_files = Option.none ∧
      DbOptions.default.create_if_missing = true ∧
      DbOptions.default.compression_type = CompressionType.None ∧
      DbOptions.default.max_total_wal_size = Option.none ∧
      DbOptions.default.log_verbosity = Option.some LogVerbosity.Info) := by
  decide

/-- C9 (amended): the default database options have `max_open_files`
unlimited (`None`), `create_if_missing` true, no compression, engine-chosen
WAL size (`None`), and `log_verbosity` unset (`None`, engine-chosen) — the
remaining optional fields are unset as well. -/
theorem C9_default_db_options :
    DbOptions.default.max_open_files = Option.none ∧
    DbOptions.default.create_if_missing = true ∧
    DbOptions.default.compression_type = CompressionType.None ∧
    DbOptions.default.max_total_wal_size = Option.none ∧
    DbOptions.default.log_verbosity = Option.none ∧
    DbOptions.default.max_log_file_size = Option.none ∧
    DbOptions.default.keep_log_file_num = Option.none ∧
    DbOptions.default.recycle_log_file_num = Option.none := by
  decide

/-- C10: `execute` taken while the registry cell's mutable borrow is
outstanding panics on `RefCell::borrow()` (first conjunct); therefore any
`dispatch_call` action reached by the interpreter under the outstanding
mutable borrow panics (second conjunct); and `init_service`, which holds
the mutable borrow for the whole duration of the service's `initialize`
call, panics whenever that initializer issues an inter-service
`dispatch_call` — it can never return normally or with a typed error
(third conjunct). -/
theorem C10_dispatch_during_init_panics :
    (∀ fuel rt ctx ci payload,
      RustRuntime.execute fuel rt true ctx ci payload = none) ∧
    (∀ fuel rt ctx ci payload k,
      runProg fuel rt true ctx (SProg.dispatchCall ci payload k) = none) ∧
    (∀ fuel rt ctx a init svc ci payload k,
      a ∈ rt.deployed →
      assocFind init.instance_id rt.initialized = none →
      assocFind a rt.services = some svc →
      svc.initialize_fn init.constructor_data = SProg.dispatchCall ci payload k →
      RustRuntime.init_service fuel rt ctx (ArtifactSpec.rust a) init = none) := by
  refine ⟨fun fuel rt ctx ci payload => execute_mutb fuel rt ctx ci payload,
    fun fuel rt ctx ci payload k => runProg_mutb_dispatch fuel rt ctx ci payload k,
    ?_⟩
  intro fuel rt ctx a init svc ci payload k hd hin hsvc hprog
  simp [RustRuntime.init_service, hd, hin, hsvc, assocFind_insert_self, hprog,
    runProg_mutb_dispatch]

/-- C10 witness: concrete deployed artifact whose initializer immediately
dispatches; both the borrow-conflict panic of `execute` and the resulting
`init_service` panic, at concrete inputs. -/
theorem C10_witness :
    RustRuntime.execute 5 rtD true ctx0 ⟨7, 0⟩ [] = none ∧
    RustRuntime.init_service 5 rtD ctx0 (ArtifactSpec.rust a0) ⟨9, []⟩ = none :=
  ⟨C10_dispatch_during_init_panics.1 5 rtD ctx0 ⟨7, 0⟩ [],
   C10_dispatch_during_init_panics.2.2 5 rtD ctx0 a0 ⟨9, []⟩ svcDispatch ⟨7, 0⟩ []
     (fun r => SProg.ret r) (by decide) rfl rfl rfl⟩
